import Mathlib

/-!
Verification of the EXP progression system and level-up dialog of the
SDP-202X repository, shallowly embedded from
`src/systems/exp/exp_manager.py` and `src/ui/level_up_ui.py`.

Python integers are modelled as `Int`; the float constants `1.30` and
`1.1` are modelled exactly as the rationals `13/10` and `11/10`, and
Python `int()` truncation toward zero as `pyInt`.  Fallible attribute
access (`player.attr` on an object that may lack the attribute) is
modelled with `Except String`, the error carrying the AttributeError.
`DebugLogger` calls are modelled as an emitted list of diagnostic
strings.  Rendering, fonts and pygame timers are external collaborators
and carry no state relevant to the claims.
-/

namespace SDP

/-- Python `int()` applied to an exact rational: truncation toward zero. -/
def pyInt (q : ℚ) : ℤ := if 0 ≤ q then ⌊q⌋ else ⌈q⌉

/-- The player entity's stats as the upgrade code sees them.  Each field is
`Option` because the code probes attributes with `hasattr` / raises
`AttributeError` on access when an attribute is missing. -/
structure Player where
  health : Option ℤ
  max_health : Option ℤ
  damage : Option ℤ
  base_speed : Option ℚ
deriving Repr, DecidableEq

/-- Python attribute access: returns the value or raises AttributeError. -/
def getAttr (a : Option α) (name : String) : Except String α :=
  match a with
  | some v => .ok v
  | none => .error ("AttributeError: " ++ name)

/-- The shared game-state object as used by `ExpManager`:
`exp`, `level`, `level_exp` and the `player` reference. -/
structure GameState where
  exp : ℤ
  level : ℤ
  level_exp : ℤ
  player : Option Player
deriving Repr, DecidableEq

/-- `ExpManager.calculate_next_exp`: `int(100 * (1.30 ** (lv - 1)))`,
with the float arithmetic modelled exactly over ℚ. -/
def calculate_next_exp (lv : ℤ) : ℤ := pyInt (100 * (13/10 : ℚ) ^ (lv - 1))

/-- `ExpManager.is_level_up`: `exp >= level_exp`. -/
def is_level_up (gs : GameState) : Bool := gs.level_exp ≤ gs.exp

/-- A rendered upgrade choice of `LevelUpUI.upgrade_choices` (colors are a
rendering concern and omitted). -/
structure Upgrade where
  name : String
  description : String
  effect : String
deriving Repr, DecidableEq

/-- `LevelUpUI.upgrade_choices`: the fixed list of exactly three options. -/
def upgrade_choices : List Upgrade :=
  [ { name := "Health +1"
      description := "Increase max health by 1"
      effect := "health" },
    { name := "Damage +50%"
      description := "Increase damage by 50%"
      effect := "damage" },
    { name := "Speed +10%"
      description := "Increase movement speed by 10%"
      effect := "speed" } ]

/-- A pygame `Rect` (position and size). -/
structure Rect where
  x : ℤ
  y : ℤ
  w : ℤ
  h : ℤ
deriving Repr, DecidableEq

/-- pygame `Rect.collidepoint`: inside test, right and bottom edges
excluded. -/
def collidepoint (r : Rect) (p : ℤ × ℤ) : Bool :=
  r.x ≤ p.1 && p.1 < r.x + r.w && r.y ≤ p.2 && p.2 < r.y + r.h

/-- The interaction state of `LevelUpUI` (fonts, colors and hover are
rendering concerns and omitted). -/
structure UIState where
  visible : Bool
  is_active : Bool
  choice_made : Bool
  selected_choice : Option String
  current_level : ℤ
  rect_width : ℤ
  choice_buttons : List Rect
deriving Repr, DecidableEq

/-- `LevelUpUI._calculate_button_positions`: three 140×80 buttons with
20px spacing, centered in the dialog, at y = 150. -/
def calculate_button_positions (rect_width : ℤ) : List Rect :=
  let button_width : ℤ := 140
  let button_height : ℤ := 80
  let button_spacing : ℤ := 20
  let n : ℤ := (upgrade_choices.length : ℤ)
  let total_width := n * button_width + (n - 1) * button_spacing
  let start_x := (rect_width - total_width) / 2
  let button_y : ℤ := 150
  (List.range upgrade_choices.length).map fun i =>
    { x := start_x + (i : ℤ) * (button_width + button_spacing)
      y := button_y
      w := button_width
      h := button_height }

/-- `LevelUpUI.__init__` interaction state: created hidden, level 1,
dialog width 500, no buttons computed yet. -/
def initUI : UIState :=
  { visible := false
    is_active := false
    choice_made := false
    selected_choice := none
    current_level := 1
    rect_width := 500
    choice_buttons := [] }

/-- `LevelUpUI.show_level_up`: activate the dialog for `level`, clear any
prior choice, recompute the buttons. -/
def show_level_up (ui : UIState) (level : ℤ) : UIState :=
  { ui with
    current_level := level
    is_active := true
    choice_made := false
    selected_choice := none
    visible := true
    choice_buttons := calculate_button_positions ui.rect_width }

/-- `LevelUpUI.is_choice_pending`: active and no choice made. -/
def is_choice_pending (ui : UIState) : Bool := ui.is_active && !ui.choice_made

/-- `LevelUpUI.hide`: force-hide and clear the choice. -/
def hide (ui : UIState) : UIState :=
  { ui with
    visible := false
    is_active := false
    choice_made := false
    selected_choice := none }

/-- The loop body of `LevelUpUI.handle_click`: walk the buttons in order
with their paired choices; on the first hit record the choice and return
its effect id. -/
def clickLoop (ui : UIState) (p : ℤ × ℤ) :
    List Upgrade → List Rect → Option String × UIState
  | c :: cs, r :: rs =>
      if collidepoint r p then
        (some c.effect,
         { ui with choice_made := true, selected_choice := some c.effect })
      else clickLoop ui p cs rs
  | _, _ => (none, ui)

/-- `LevelUpUI.handle_click`: returns the selected effect id and the
updated state, or `none` when inactive, already chosen, or no button hit. -/
def handle_click (ui : UIState) (p : ℤ × ℤ) : Option String × UIState :=
  if !ui.is_active || ui.choice_made then (none, ui)
  else clickLoop ui p upgrade_choices ui.choice_buttons

/-- The `ExpManager` together with the state it owns: the shared game
state and the optional `level_up_ui` reference. -/
structure Manager where
  game_state : GameState
  level_up_ui : Option UIState
deriving Repr, DecidableEq

/-- `ExpManager.level_up`: reset EXP, increment the level, recompute the
threshold, then show the level-up UI when a reference is registered
(logged no-op otherwise).  Returns the new manager state and the emitted
diagnostics. -/
def level_up (m : Manager) : Manager × List String :=
  let gs0 := m.game_state
  let gs := { gs0 with exp := 0, level := gs0.level + 1 }
  let gs := { gs with level_exp := calculate_next_exp gs.level }
  let stateLog := "[ExpManager][LEVEL UP] Level : " ++ toString gs.level ++
    " (Next Required EXP: " ++ toString gs.level_exp ++ ")"
  match m.level_up_ui with
  | some ui =>
      ({ game_state := gs, level_up_ui := some (show_level_up ui gs.level) },
       [stateLog,
        "ExpManager triggered LevelUpUI for level " ++ toString gs.level])
  | none =>
      ({ game_state := gs, level_up_ui := none },
       [stateLog, "ExpManager: No LevelUpUI reference available"])

/-- `ExpManager.exp_up`: add the award to `exp`, log, then trigger a
single `level_up` when the threshold check passes. -/
def exp_up (m : Manager) (amount : ℤ) : Manager × List String :=
  let gs := { m.game_state with exp := m.game_state.exp + amount }
  let m := { m with game_state := gs }
  let upLog := "[ExpManager][Exp Up] +" ++ toString amount ++ " (" ++
    toString gs.exp ++ "/" ++ toString gs.level_exp ++ ")"
  if is_level_up gs then
    let r := level_up m
    (r.1, upLog :: r.2)
  else (m, [upLog])

/-- `ExpManager.handle_upgrade_choice`: apply the chosen upgrade to the
player stats.  `Except` models an escaping Python exception; the normal
result carries the new game state and the emitted diagnostics.  The
pre-upgrade stats log reads all four stat attributes unconditionally. -/
def handle_upgrade_choice (gs : GameState) (upgrade_type : String) :
    Except String (GameState × List String) :=
  match gs.player with
  | none => .ok (gs, ["ExpManager: No player reference available for upgrade"])
  | some player => do
    let h ← getAttr player.health "health"
    let mh ← getAttr player.max_health "max_health"
    let d ← getAttr player.damage "damage"
    let bs ← getAttr player.base_speed "base_speed"
    let beforeLog := "Current player stats - Health: " ++ toString h ++ "/" ++
      toString mh ++ ", Damage: " ++ toString d ++ ", Speed: " ++ toString bs
    if upgrade_type = "health" then
      let player := { player with max_health := some (mh + 1) }
      let player := { player with health := player.max_health }
      let actLog := "Health upgrade: max_health " ++ toString mh ++ " to " ++
        toString (mh + 1) ++ ", health fully restored"
      let gs := { gs with player := some player }
      .ok (gs, [beforeLog, actLog, "Updated player stats"])
    else if upgrade_type = "damage" then
      if player.damage.isSome then
        let newDamage := pyInt ((d : ℚ) * (11/10))
        let player := { player with damage := some newDamage }
        let actLog := "Damage upgrade: " ++ toString d ++ " to " ++
          toString newDamage
        let gs := { gs with player := some player }
        .ok (gs, [beforeLog, actLog, "Updated player stats"])
      else .ok (gs, [beforeLog, "Updated player stats"])
    else if upgrade_type = "speed" then
      if player.base_speed.isSome then
        let newSpeed := bs * (11/10)
        let player := { player with base_speed := some newSpeed }
        let actLog := "Speed upgrade: " ++ toString bs ++ " to " ++
          toString newSpeed
        let gs := { gs with player := some player }
        .ok (gs, [beforeLog, actLog, "Updated player stats"])
      else .ok (gs, [beforeLog, "Updated player stats"])
    else
      .ok (gs, [beforeLog, "Unknown upgrade type: " ++ upgrade_type])

/-- `ExpManager.is_level_up_ui_active`: a UI reference exists and its
choice is pending. -/
def is_level_up_ui_active (m : Manager) : Bool :=
  match m.level_up_ui with
  | some ui => is_choice_pending ui
  | none => false

end SDP

namespace SDP

/-! ## Helper definitions and lemmas -/

/-- The damage stat of the player held by a game state, when both exist. -/
def damageOf (gs : GameState) : Option ℤ := gs.player.bind fun p => p.damage

/-- The health stat of the player held by a game state, when both exist. -/
def healthOf (gs : GameState) : Option ℤ := gs.player.bind fun p => p.health

/-- The max-health stat of the player held by a game state, when both
exist. -/
def maxHealthOf (gs : GameState) : Option ℤ := gs.player.bind fun p => p.max_health

/-- The buttons computed for the actual 500-pixel-wide dialog. -/
def standardButtons : List Rect := calculate_button_positions 500

theorem standardButtons_eq :
    standardButtons =
      [⟨20, 150, 140, 80⟩, ⟨180, 150, 140, 80⟩, ⟨340, 150, 140, 80⟩] := by
  decide

theorem pyInt_eq_floor {q : ℚ} (h : 0 ≤ q) : pyInt q = ⌊q⌋ := by
  simp [pyInt, h]

theorem growth_base_pos (lv : ℤ) : (0 : ℚ) < 100 * (13/10 : ℚ) ^ (lv - 1) := by
  positivity

theorem calculate_next_exp_eq_floor (lv : ℤ) :
    calculate_next_exp lv = ⌊(100 : ℚ) * (13/10 : ℚ) ^ (lv - 1)⌋ := by
  rw [calculate_next_exp, pyInt_eq_floor (growth_base_pos lv).le]

theorem calculate_next_exp_pos (lv : ℤ) (h : 1 ≤ lv) :
    100 ≤ calculate_next_exp lv := by
  rw [calculate_next_exp_eq_floor]
  rw [Int.le_floor]
  have h1 : (1 : ℚ) ≤ (13/10 : ℚ) ^ (lv - 1) :=
    one_le_zpow₀ (by norm_num) (by omega)
  push_cast
  nlinarith

theorem level_up_state (m : Manager) :
    (level_up m).1.game_state.exp = 0 ∧
    (level_up m).1.game_state.level = m.game_state.level + 1 ∧
    (level_up m).1.game_state.level_exp =
      calculate_next_exp (m.game_state.level + 1) := by
  cases h : m.level_up_ui <;> simp [level_up, h]

/-! ## The claims -/

/-- C2: after a call to `level_up()`, `current_exp` equals 0, `level`
equals the prior level plus exactly 1, and `exp_to_next_level` equals the
growth curve applied to the new level. -/
theorem level_up_spec (m : Manager) :
    (level_up m).1.game_state.exp = 0 ∧
    (level_up m).1.game_state.level = m.game_state.level + 1 ∧
    (level_up m).1.game_state.level_exp =
      calculate_next_exp (m.game_state.level + 1) :=
  level_up_state m

/-- C4: the growth curve equals `floor(base * rate^(level-1))` with the
fixed constants `base = 100` and `rate = 1.30`; `growth_curve 1 = base`,
and the curve is monotonically non-decreasing for every `level >= 1`. -/
theorem calculate_next_exp_spec :
    (∀ lv : ℤ, calculate_next_exp lv = ⌊(100 : ℚ) * (13/10 : ℚ) ^ (lv - 1)⌋) ∧
    calculate_next_exp 1 = 100 ∧
    (∀ a b : ℤ, 1 ≤ a → a ≤ b →
      calculate_next_exp a ≤ calculate_next_exp b) := by
  refine ⟨calculate_next_exp_eq_floor, ?_, ?_⟩
  · rw [calculate_next_exp_eq_floor]
    norm_num
  · intro a b _ hab
    rw [calculate_next_exp_eq_floor, calculate_next_exp_eq_floor]
    apply Int.floor_le_floor
    have hz : (13/10 : ℚ) ^ (a - 1) ≤ (13/10 : ℚ) ^ (b - 1) :=
      zpow_le_zpow_right₀ (by norm_num) (by omega)
    nlinarith

/-- C4 witness: `growth_curve(1) = 100` and the curve does not decrease
from level 2 to level 3. -/
theorem calculate_next_exp_spec_witness :
    calculate_next_exp 1 = 100 ∧ calculate_next_exp 2 ≤ calculate_next_exp 3 :=
  ⟨calculate_next_exp_spec.2.1,
   calculate_next_exp_spec.2.2 2 3 (by norm_num) (by norm_num)⟩

/-- C8: `show_level_up` is re-entrant: from any dialog state it produces a
fresh awaiting-choice state for the new level, with any prior choice
cleared and the choice reported as pending. -/
theorem show_level_up_spec (ui : UIState) (level : ℤ) :
    is_choice_pending (show_level_up ui level) = true ∧
    (show_level_up ui level).current_level = level ∧
    (show_level_up ui level).is_active = true ∧
    (show_level_up ui level).choice_made = false ∧
    (show_level_up ui level).selected_choice = none := by
  simp [show_level_up, is_choice_pending]

/-- C9: with no level-up UI reference registered, `level_up()` still
applies every progression-state change and completes, the UI side
degrading to a logged no-op. -/
theorem level_up_no_ui_spec (m : Manager) (hui : m.level_up_ui = none) :
    (level_up m).1.game_state.exp = 0 ∧
    (level_up m).1.game_state.level = m.game_state.level + 1 ∧
    (level_up m).1.game_state.level_exp =
      calculate_next_exp (m.game_state.level + 1) ∧
    (level_up m).1.level_up_ui = none ∧
    "ExpManager: No LevelUpUI reference available" ∈ (level_up m).2 := by
  simp [level_up, hui]

/-- C9 witness: the no-UI level-up evaluated on a concrete manager. -/
theorem level_up_no_ui_spec_witness :
    (level_up ⟨⟨0, 1, 100, none⟩, none⟩).1.game_state.exp = 0 ∧
    (level_up ⟨⟨0, 1, 100, none⟩, none⟩).1.game_state.level = 1 + 1 ∧
    (level_up ⟨⟨0, 1, 100, none⟩, none⟩).1.game_state.level_exp =
      calculate_next_exp (1 + 1) ∧
    (level_up ⟨⟨0, 1, 100, none⟩, none⟩).1.level_up_ui = none ∧
    "ExpManager: No LevelUpUI reference available" ∈
      (level_up ⟨⟨0, 1, 100, none⟩, none⟩).2 :=
  level_up_no_ui_spec ⟨⟨0, 1, 100, none⟩, none⟩ rfl

end SDP

namespace SDP

/-- When the added award reaches the threshold, `exp_up` runs exactly one
`level_up`: EXP resets to 0, the level increments by 1, the threshold is
recomputed. -/
theorem exp_up_fire (m : Manager) (amount : ℤ)
    (h : m.game_state.level_exp ≤ m.game_state.exp + amount) :
    (exp_up m amount).1.game_state.exp = 0 ∧
    (exp_up m amount).1.game_state.level = m.game_state.level + 1 ∧
    (exp_up m amount).1.game_state.level_exp =
      calculate_next_exp (m.game_state.level + 1) := by
  simpa [exp_up, is_level_up, h] using level_up_state
    { m with game_state :=
        { m.game_state with exp := m.game_state.exp + amount } }

/-- When the added award stays below the threshold, `exp_up` only adds
the award to EXP and leaves level and threshold unchanged. -/
theorem exp_up_no_fire (m : Manager) (amount : ℤ)
    (h : ¬ m.game_state.level_exp ≤ m.game_state.exp + amount) :
    (exp_up m amount).1.game_state.exp = m.game_state.exp + amount ∧
    (exp_up m amount).1.game_state.level = m.game_state.level ∧
    (exp_up m amount).1.game_state.level_exp = m.game_state.level_exp := by
  simp [exp_up, is_level_up, h]

/-- C1: `exp_up(amount)` first adds `amount` to the EXP total, then
triggers `level_up` at most once — exactly once iff the new total reaches
the threshold — and when it fires the leftover above the threshold is
discarded (`exp` becomes 0) and the level increments by exactly 1, no
matter how far the award overshoots. -/
theorem exp_up_single_step (m : Manager) (amount : ℤ) :
    (¬ m.game_state.level_exp ≤ m.game_state.exp + amount →
      (exp_up m amount).1.game_state.exp = m.game_state.exp + amount ∧
      (exp_up m amount).1.game_state.level = m.game_state.level ∧
      (exp_up m amount).1.game_state.level_exp = m.game_state.level_exp) ∧
    (m.game_state.level_exp ≤ m.game_state.exp + amount →
      (exp_up m amount).1.game_state.exp = 0 ∧
      (exp_up m amount).1.game_state.level = m.game_state.level + 1 ∧
      (exp_up m amount).1.game_state.level_exp =
        calculate_next_exp (m.game_state.level + 1)) ∧
    (m.game_state.level_exp ≤ m.game_state.exp + amount ↔
      (exp_up m amount).1.game_state.level = m.game_state.level + 1 ∧
      (exp_up m amount).1.game_state.exp = 0) := by
  refine ⟨exp_up_no_fire m amount, exp_up_fire m amount, ?_, ?_⟩
  · intro h
    obtain ⟨he, hl, _⟩ := exp_up_fire m amount h
    exact ⟨hl, he⟩
  · intro hc
    by_contra h
    obtain ⟨_, hl, _⟩ := exp_up_no_fire m amount h
    omega

/-- C1 witness: a 1000-point award from exp 0 against threshold 100
levels up exactly once, to level 2, with the leftover 900 discarded. -/
theorem exp_up_single_step_witness :
    (exp_up ⟨⟨0, 1, 100, none⟩, none⟩ 1000).1.game_state.exp = 0 ∧
    (exp_up ⟨⟨0, 1, 100, none⟩, none⟩ 1000).1.game_state.level = 1 + 1 ∧
    (exp_up ⟨⟨0, 1, 100, none⟩, none⟩ 1000).1.game_state.level_exp =
      calculate_next_exp (1 + 1) :=
  (exp_up_single_step ⟨⟨0, 1, 100, none⟩, none⟩ 1000).2.1 (by norm_num)

/-- C10: a progression state (level at least 1 per the data-model
invariant) with a positive threshold and EXP strictly below it is mapped
by any `exp_up` with a non-negative award to a state again strictly below
its threshold, so `is_level_up` is false after every `exp_up` returns. -/
theorem exp_up_below_threshold (m : Manager) (amount : ℤ)
    (hlv : 1 ≤ m.game_state.level)
    (hpos : 0 < m.game_state.level_exp)
    (hlt : m.game_state.exp < m.game_state.level_exp)
    (ha : 0 ≤ amount) :
    (exp_up m amount).1.game_state.exp <
      (exp_up m amount).1.game_state.level_exp ∧
    is_level_up (exp_up m amount).1.game_state = false := by
  have key : (exp_up m amount).1.game_state.exp <
      (exp_up m amount).1.game_state.level_exp := by
    by_cases h : m.game_state.level_exp ≤ m.game_state.exp + amount
    · obtain ⟨he, _, hl⟩ := exp_up_fire m amount h
      rw [he, hl]
      have := calculate_next_exp_pos (m.game_state.level + 1) (by omega)
      omega
    · obtain ⟨he, _, hl⟩ := exp_up_no_fire m amount h
      omega
  refine ⟨key, ?_⟩
  simp only [is_level_up, decide_eq_false_iff_not, not_le]
  exact key

/-- C10 witness: the invariant at a concrete state and a 1000-point
award. -/
theorem exp_up_below_threshold_witness :
    (exp_up ⟨⟨0, 1, 100, none⟩, none⟩ 1000).1.game_state.exp <
      (exp_up ⟨⟨0, 1, 100, none⟩, none⟩ 1000).1.game_state.level_exp ∧
    is_level_up (exp_up ⟨⟨0, 1, 100, none⟩, none⟩ 1000).1.game_state = false :=
  exp_up_below_threshold ⟨⟨0, 1, 100, none⟩, none⟩ 1000 (by norm_num)
    (by norm_num) (by norm_num) (by norm_num)

end SDP

namespace SDP

/-! ## Upgrade application: branch lemmas and concrete states -/

theorem upgrade_health_ok (gs : GameState) (p : Player) (h mh d : ℤ) (bs : ℚ)
    (hp : gs.player = some p) (hh : p.health = some h) (hm : p.max_health = some mh)
    (hd : p.damage = some d) (hb : p.base_speed = some bs) :
    ∃ logs, handle_upgrade_choice gs "health" =
      .ok ({ gs with player := some { p with max_health := some (mh + 1), health := some (mh + 1) } }, logs) := by
  simp [handle_upgrade_choice, hp, hh, hm, hd, hb, getAttr, bind, Except.bind]

theorem upgrade_damage_ok (gs : GameState) (p : Player) (h mh d : ℤ) (bs : ℚ)
    (hp : gs.player = some p) (hh : p.health = some h) (hm : p.max_health = some mh)
    (hd : p.damage = some d) (hb : p.base_speed = some bs) :
    ∃ logs, handle_upgrade_choice gs "damage" =
      .ok ({ gs with player := some { p with damage := some (pyInt ((d : ℚ) * (11/10))) } }, logs) := by
  simp [handle_upgrade_choice, hp, hh, hm, hd, hb, getAttr, bind, Except.bind]

/-- A player carrying every stat attribute, as the game's player entity
does: health 3 of 5, damage 10, base speed 2. -/
def playerFull : Player :=
  { health := some 3, max_health := some 5, damage := some 10, base_speed := some 2 }

/-- A game state at level 2 holding `playerFull`. -/
def gsFull : GameState :=
  { exp := 0, level := 2, level_exp := 130, player := some playerFull }

/-- `playerFull` with the `base_speed` attribute missing. -/
def playerNoSpeed : Player :=
  { health := some 3, max_health := some 5, damage := some 10, base_speed := none }

/-- A game state at level 2 holding `playerNoSpeed`. -/
def gsNoSpeed : GameState :=
  { exp := 0, level := 2, level_exp := 130, player := some playerNoSpeed }

/-- C3 counterexample: applying the damage upgrade once to a player with
damage 10 yields damage 11, not the claimed 15 — the code's multiplier is
1.1, not 1.5. -/
theorem upgrade_damage_counterexample :
    (handle_upgrade_choice gsFull "damage").map (fun r => damageOf r.1) =
      .ok (some 11) ∧
    (Except.ok (some (11 : ℤ)) : Except String (Option ℤ)) ≠ .ok (some 15) := by
  constructor
  · obtain ⟨logs, heq⟩ :=
      upgrade_damage_ok gsFull playerFull 3 5 10 2 rfl rfl rfl rfl rfl
    rw [heq]
    simp only [Except.map, damageOf, Option.bind]
    norm_num [pyInt]
  · simp

/-- C3 amended: `apply_upgrade(Damage)` multiplies damage by the fixed
constant 1.1 and truncates (`int`, which is `floor` for non-negative
damage); a second application compounds multiplicatively on the truncated
result. -/
theorem upgrade_damage_spec (gs : GameState) (p : Player) (h mh d : ℤ) (bs : ℚ)
    (hp : gs.player = some p) (hh : p.health = some h) (hm : p.max_health = some mh)
    (hd : p.damage = some d) (hb : p.base_speed = some bs) :
    (0 ≤ d → pyInt ((d : ℚ) * (11/10)) = ⌊(d : ℚ) * (11/10)⌋) ∧
    ∃ gs1 logs1 gs2 logs2,
      handle_upgrade_choice gs "damage" = .ok (gs1, logs1) ∧
      damageOf gs1 = some (pyInt ((d : ℚ) * (11/10))) ∧
      handle_upgrade_choice gs1 "damage" = .ok (gs2, logs2) ∧
      damageOf gs2 = some (pyInt ((pyInt ((d : ℚ) * (11/10)) : ℚ) * (11/10))) := by
  constructor
  · intro hd0
    have hq : (0 : ℚ) ≤ (d : ℚ) * (11/10) := by
      have : (0 : ℚ) ≤ (d : ℚ) := by exact_mod_cast hd0
      nlinarith
    exact pyInt_eq_floor hq
  · obtain ⟨logs1, h1⟩ := upgrade_damage_ok gs p h mh d bs hp hh hm hd hb
    obtain ⟨logs2, h2⟩ := upgrade_damage_ok
      ({ gs with player := some { p with damage := some (pyInt ((d : ℚ) * (11/10))) } })
      ({ p with damage := some (pyInt ((d : ℚ) * (11/10))) })
      h mh (pyInt ((d : ℚ) * (11/10))) bs rfl (by simpa using hh) (by simpa using hm)
      rfl (by simpa using hb)
    refine ⟨_, logs1, _, logs2, h1, by simp [damageOf], h2, by simp [damageOf]⟩

/-- C3 witness: concrete run of the amended claim — damage 10 becomes 11
after one application and 12 after a second. -/
theorem upgrade_damage_spec_witness :
    ∃ gs1 logs1 gs2 logs2,
      handle_upgrade_choice gsFull "damage" = .ok (gs1, logs1) ∧
      damageOf gs1 = some 11 ∧
      handle_upgrade_choice gs1 "damage" = .ok (gs2, logs2) ∧
      damageOf gs2 = some 12 := by
  obtain ⟨gs1, logs1, gs2, logs2, h1, h2, h3, h4⟩ :=
    (upgrade_damage_spec gsFull playerFull 3 5 10 2 rfl rfl rfl rfl rfl).2
  have e1 : pyInt (((10 : ℤ) : ℚ) * (11/10)) = 11 := by norm_num [pyInt]
  have e2 : pyInt ((pyInt (((10 : ℤ) : ℚ) * (11/10)) : ℚ) * (11/10)) = 12 := by
    rw [e1]; norm_num [pyInt]
  rw [e1] at h2
  rw [e2] at h4
  exact ⟨gs1, logs1, gs2, logs2, h1, h2, h3, h4⟩

/-- C5: the claim that `apply_upgrade` never lets an exception cross the
boundary fails on the code — the pre-upgrade stats log reads all four
stat attributes unconditionally, so a player lacking `base_speed` makes
every upgrade call raise `AttributeError`, even the health upgrade that
never targets speed; the absent-player and unknown-id cases do degrade to
logged no-ops as claimed. -/
theorem handle_upgrade_missing_attr_raises :
    handle_upgrade_choice gsNoSpeed "speed" = .error "AttributeError: base_speed" ∧
    handle_upgrade_choice gsNoSpeed "health" = .error "AttributeError: base_speed" ∧
    handle_upgrade_choice { gsFull with player := none } "health" =
      .ok ({ gsFull with player := none },
        ["ExpManager: No player reference available for upgrade"]) ∧
    (handle_upgrade_choice gsFull "teleport").map (fun r => r.1) = .ok gsFull :=
  ⟨rfl, rfl, rfl, rfl⟩

/-- C7: for a full-attribute player with `health <= max_health`, the
health upgrade raises `max_health` by exactly 1 and sets `health` to the
new `max_health` (full heal). -/
theorem upgrade_health_spec (gs : GameState) (p : Player) (h mh d : ℤ) (bs : ℚ)
    (hp : gs.player = some p) (hh : p.health = some h) (hm : p.max_health = some mh)
    (hd : p.damage = some d) (hb : p.base_speed = some bs) (hle : h ≤ mh) :
    ∃ gs1 logs, handle_upgrade_choice gs "health" = .ok (gs1, logs) ∧
      maxHealthOf gs1 = some (mh + 1) ∧
      healthOf gs1 = maxHealthOf gs1 := by
  obtain ⟨logs, heq⟩ := upgrade_health_ok gs p h mh d bs hp hh hm hd hb
  exact ⟨_, logs, heq, by simp [maxHealthOf], by simp [healthOf, maxHealthOf]⟩

/-- C7 witness: the spec's scenario — health 3 of 5 becomes 6 of 6. -/
theorem upgrade_health_spec_witness :
    ∃ gs1 logs, handle_upgrade_choice gsFull "health" = .ok (gs1, logs) ∧
      maxHealthOf gs1 = some (5 + 1) ∧
      healthOf gs1 = maxHealthOf gs1 :=
  upgrade_health_spec gsFull playerFull 3 5 10 2 rfl rfl rfl rfl rfl
    (by norm_num)

end SDP

namespace SDP

/-- C6: `handle_click(point)` returns an upgrade id iff the dialog is
awaiting a choice (active, none made) and the point lies inside that id's
hit-region; for a point outside all three regions, or when the dialog is
hidden or a choice was already made, it returns nothing and leaves the
dialog state unchanged. -/
theorem handle_click_spec (ui : UIState) (p : ℤ × ℤ)
    (hb : ui.choice_buttons = standardButtons) :
    ((handle_click ui p).1 = some "health" ↔
      (ui.is_active = true ∧ ui.choice_made = false ∧
        collidepoint ⟨20, 150, 140, 80⟩ p = true)) ∧
    ((handle_click ui p).1 = some "damage" ↔
      (ui.is_active = true ∧ ui.choice_made = false ∧
        collidepoint ⟨180, 150, 140, 80⟩ p = true)) ∧
    ((handle_click ui p).1 = some "speed" ↔
      (ui.is_active = true ∧ ui.choice_made = false ∧
        collidepoint ⟨340, 150, 140, 80⟩ p = true)) ∧
    ((handle_click ui p).1 = none → handle_click ui p = (none, ui)) ∧
    ((ui.is_active = false ∨ ui.choice_made = true) →
      handle_click ui p = (none, ui)) ∧
    ((collidepoint ⟨20, 150, 140, 80⟩ p = false ∧
      collidepoint ⟨180, 150, 140, 80⟩ p = false ∧
      collidepoint ⟨340, 150, 140, 80⟩ p = false) →
      handle_click ui p = (none, ui)) := by
  have d01 : ¬(collidepoint ⟨20, 150, 140, 80⟩ p = true ∧
      collidepoint ⟨180, 150, 140, 80⟩ p = true) := by
    simp only [collidepoint, Bool.and_eq_true, decide_eq_true_eq]
    omega
  have d02 : ¬(collidepoint ⟨20, 150, 140, 80⟩ p = true ∧
      collidepoint ⟨340, 150, 140, 80⟩ p = true) := by
    simp only [collidepoint, Bool.and_eq_true, decide_eq_true_eq]
    omega
  have d12 : ¬(collidepoint ⟨180, 150, 140, 80⟩ p = true ∧
      collidepoint ⟨340, 150, 140, 80⟩ p = true) := by
    simp only [collidepoint, Bool.and_eq_true, decide_eq_true_eq]
    omega
  cases h1 : ui.is_active <;> cases h2 : ui.choice_made <;>
    by_cases h3 : collidepoint ⟨20, 150, 140, 80⟩ p = true <;>
    by_cases h4 : collidepoint ⟨180, 150, 140, 80⟩ p = true <;>
    by_cases h5 : collidepoint ⟨340, 150, 140, 80⟩ p = true <;>
    simp_all [handle_click, clickLoop, upgrade_choices, standardButtons_eq]

/-- C6 witness: on the freshly shown dialog, a click at (30, 160) inside
the first region selects "health", and a click at (0, 0) outside every
region is a no-op. -/
theorem handle_click_spec_witness :
    (handle_click (show_level_up initUI 2) (30, 160)).1 = some "health" ∧
    handle_click (show_level_up initUI 2) (0, 0) =
      (none, show_level_up initUI 2) :=
  ⟨(handle_click_spec (show_level_up initUI 2) (30, 160) rfl).1.mpr
      ⟨rfl, rfl, by decide⟩,
   (handle_click_spec (show_level_up initUI 2) (0, 0) rfl).2.2.2.2.2
      ⟨by decide, by decide, by decide⟩⟩

end SDP
